import Mathlib

/-!
Verification of the 802 Manager core: the DX7/TX802 SysEx codec and
device-automation engine (`core/dx7_utils.py` and `core/tx802_utils.py`).

Bytes are modelled as `Nat` with explicit `% 2^k` arithmetic:
`x & 0x7F` becomes `x % 128`, `x >> 3` becomes `x / 8`, `x << 3` becomes
`x * 8`, and a packed or-combination of disjoint bit fields becomes `+`.
Byte strings are `List Nat`.  Fallible operations return small inductive
result types mirroring the distinct error returns of the source.
-/

namespace TX802

/-- Checksum for DX7 SysEx data (`dx7_utils.checksum`):
`total = sum(data) & 0x7F; return (128 - total) & 0x7F`. -/
def checksum (data : List Nat) : Nat :=
  (128 - data.sum % 128) % 128

/-- The inline bank checksum computation of `dx7_utils.is_valid_dx7_bank`
(line 150): `(128 - (sum(data) & 0x7F)) & 0x7F`. -/
def bank_checksum_calc (data : List Nat) : Nat :=
  (128 - data.sum % 128) % 128

/-- Result of `dx7_utils.is_valid_dx7_bank`, one constructor per distinct
`return False` site plus `ok` for the accepting return. -/
inductive BankCheck where
  | ok
  | sizeError
  | headerError
  | endMarkerError
  | dataLenError
  | checksumMismatch
deriving DecidableEq

/-- The 4096 payload bytes of a bank file: `file_content[6:4102]`. -/
def bankPayload (f : List Nat) : List Nat :=
  (f.drop 6).take 4096

/-- `dx7_utils.is_valid_dx7_bank`.  The header test mirrors the source:
either the fixed prefix `F0 43 .. 09 20 00` (the first, channel-agnostic
test; byte 2 is not inspected there) or the channel-tolerant variant with
byte 2 in `0x00..0x0F`. -/
def is_valid_dx7_bank (f : List Nat) : BankCheck :=
  if f.length ≠ 4104 then .sizeError
  else if ¬ ((f.getD 0 0 = 0xF0 ∧ f.getD 1 0 = 0x43 ∧
              f.getD 3 0 = 0x09 ∧ f.getD 4 0 = 0x20 ∧ f.getD 5 0 = 0x00) ∨
             (f.getD 0 0 = 0xF0 ∧ f.getD 1 0 = 0x43 ∧ f.getD 2 0 ≤ 0x0F ∧
              f.getD 3 0 = 0x09 ∧ f.getD 4 0 = 0x20 ∧ f.getD 5 0 = 0x00)) then .headerError
  else if f.getD 4103 0 ≠ 0xF7 then .endMarkerError
  else if (bankPayload f).length ≠ 4096 then .dataLenError
  else if bank_checksum_calc (bankPayload f) ≠ f.getD 4102 0 then .checksumMismatch
  else .ok

/-- The default INIT patch, 155 bytes single-voice format
(`dx7_utils.DEFAULT_INIT_VOICE_155`). -/
def DEFAULT_INIT_VOICE_155 : List Nat := [
  -- OP6 .. OP1, 21 bytes each
  50, 50, 50, 99, 99, 99, 99, 0, 0, 0, 0, 0, 0, 7, 0, 0, 99, 0, 1, 0, 7,
  50, 50, 50, 99, 99, 99, 99, 0, 0, 0, 0, 0, 0, 7, 0, 0, 99, 0, 1, 0, 7,
  50, 50, 50, 99, 99, 99, 99, 0, 0, 0, 0, 0, 0, 7, 0, 0, 99, 0, 1, 0, 7,
  50, 50, 50, 99, 99, 99, 99, 0, 0, 0, 0, 0, 0, 7, 0, 0, 99, 0, 1, 0, 7,
  50, 50, 50, 99, 99, 99, 99, 0, 0, 0, 0, 0, 0, 7, 0, 0, 99, 0, 1, 0, 7,
  50, 50, 50, 99, 99, 99, 99, 0, 0, 0, 0, 0, 0, 7, 0, 0, 99, 0, 1, 0, 7,
  -- Pitch EG (126-133)
  50, 50, 50, 50, 50, 50, 50, 50,
  -- Algorithm (134), Feedback (135), OSC Sync (136)
  0, 0, 0,
  -- LFO: Speed, Delay, PMD, AMD, Sync, Wave, PMS (137-143)
  35, 0, 0, 0, 0, 0, 0,
  -- Transpose (144)
  24,
  -- Voice name "INIT      " (145-154)
  73, 78, 73, 84, 32, 32, 32, 32, 32, 32]

/-- Byte `j` (0-based, `j < 128`) of the packed 128-byte bank voice built
from the 155-byte single voice `v` (`dx7_utils.pack_single_to_bank_voice`).
Each branch mirrors one `packed_data[...] = ...` assignment of the source;
bit operations are written arithmetically (`& 0x03` is `% 4`, `<< 2` is
`* 4`, disjoint `|` is `+`). -/
def packByte (v : Nat → Nat) (j : Nat) : Nat :=
  if j < 102 then
    -- operator region: op block 0..5 (OP6..OP1), byte k of 17
    let op := j / 17
    let k := j % 17
    let s := op * 21
    if k < 11 then v (s + k)                                    -- EG rates/levels, BP, LD, RD
    else if k = 11 then (v (s + 12) % 4) * 4 + v (s + 11) % 4   -- (RC & 3) << 2 | (LC & 3)
    else if k = 12 then (v (s + 20) % 16) * 8 + v (s + 13) % 8  -- (detune & 0xF) << 3 | (RS & 7)
    else if k = 13 then (v (s + 15) % 8) * 8 + v (s + 14) % 4   -- (KVS & 7) << 3 | (AMS & 3)
    else if k = 14 then v (s + 16)                              -- output level
    else if k = 15 then (v (s + 18) % 32) * 2 + v (s + 17) % 2  -- (FC & 0x1F) << 1 | (mode & 1)
    else v (s + 19)                                             -- k = 16: fine frequency
  else if j < 110 then v (126 + (j - 102))                      -- pitch EG
  else if j = 110 then v 134 % 32                               -- algorithm & 0x1F
  else if j = 111 then (v 136 % 2) * 8 + v 135 % 8              -- (osc_sync & 1) << 3 | (fb & 7)
  else if j < 116 then v (137 + (j - 112))                      -- LFO speed, delay, PMD, AMD
  else if j = 116 then (v 143 % 8) * 16 + (v 142 % 8) * 2 + v 141 % 2
                                    -- (PMS & 7) << 4 | (wave & 7) << 1 | (sync & 1)
  else if j = 117 then v 144                                    -- transpose (no mask on pack)
  else v (145 + (j - 118))                                      -- name characters

/-- Byte `i` (0-based, `i < 155`) of the 155-byte single voice recovered
from the packed voice `p` (`dx7_utils.unpack_bank_voice_to_single` and
`unpack_operator_bytes`).  Same arithmetic conventions as `packByte`. -/
def unpackByte (p : Nat → Nat) (i : Nat) : Nat :=
  if i < 126 then
    let op := i / 21
    let k := i % 21
    let b := op * 17
    if k < 11 then p (b + k)
    else if k = 11 then p (b + 11) % 4            -- left curve
    else if k = 12 then p (b + 11) / 4 % 4        -- right curve
    else if k = 13 then p (b + 12) % 8            -- rate scale
    else if k = 14 then p (b + 13) % 4            -- AMS
    else if k = 15 then p (b + 13) / 8 % 8        -- KVS
    else if k = 16 then p (b + 14)                -- output level
    else if k = 17 then p (b + 15) % 2            -- mode
    else if k = 18 then p (b + 15) / 2 % 32       -- coarse frequency
    else if k = 19 then p (b + 16)                -- fine frequency
    else p (b + 12) / 8 % 16                      -- k = 20: detune
  else if i < 134 then p (102 + (i - 126))        -- pitch EG
  else if i = 134 then p 110 % 32                 -- algorithm
  else if i = 135 then p 111 % 8                  -- feedback
  else if i = 136 then p 111 / 8 % 2              -- osc sync
  else if i < 141 then p (112 + (i - 137))        -- LFO speed, delay, PMD, AMD
  else if i = 141 then p 116 % 2                  -- LFO sync
  else if i = 142 then p 116 / 2 % 8              -- LFO wave
  else if i = 143 then p 116 / 16 % 8             -- LFO PMS
  else if i = 144 then p 117 % 64                 -- transpose & 0x3F
  else p (118 + (i - 145))                        -- name characters

/-- `dx7_utils.pack_single_to_bank_voice` on byte strings: the 128-byte
packed voice, each output byte given by `packByte`. -/
def pack_single_to_bank_voice (v : List Nat) : List Nat :=
  (List.range 128).map (packByte (fun i => v.getD i 0))

/-- `dx7_utils.unpack_bank_voice_to_single` on byte strings: the 155-byte
single voice, each output byte given by `unpackByte`. -/
def unpack_bank_voice_to_single (p : List Nat) : List Nat :=
  (List.range 155).map (unpackByte (fun j => p.getD j 0))

/-- Documented ranges of the sub-byte fields of one 21-byte operator block
starting at index `s`: curves 0-3, rate scale 0-7, AMS 0-3, KVS 0-7,
mode 0-1, coarse 0-31, detune 0-14. -/
def OpMaskedOk (v : List Nat) (s : Nat) : Prop :=
  v.getD (s + 11) 0 ≤ 3 ∧ v.getD (s + 12) 0 ≤ 3 ∧ v.getD (s + 13) 0 ≤ 7
  ∧ v.getD (s + 14) 0 ≤ 3 ∧ v.getD (s + 15) 0 ≤ 7 ∧ v.getD (s + 17) 0 ≤ 1
  ∧ v.getD (s + 18) 0 ≤ 31 ∧ v.getD (s + 20) 0 ≤ 14

instance (v : List Nat) (s : Nat) : Decidable (OpMaskedOk v s) := by
  unfold OpMaskedOk; infer_instance

/-- Documented ranges of the global sub-byte fields: algorithm 0-31,
feedback 0-7, oscillator sync 0-1, LFO sync 0-1, LFO wave 0-7,
LFO PMS 0-7, transpose 0-48. -/
def GlobalMaskedOk (v : List Nat) : Prop :=
  v.getD 134 0 ≤ 31 ∧ v.getD 135 0 ≤ 7 ∧ v.getD 136 0 ≤ 1
  ∧ v.getD 141 0 ≤ 1 ∧ v.getD 142 0 ≤ 7 ∧ v.getD 143 0 ≤ 7
  ∧ v.getD 144 0 ≤ 48

instance (v : List Nat) : Decidable (GlobalMaskedOk v) := by
  unfold GlobalMaskedOk; infer_instance

/-- A well-formed 155-byte unpacked voice: every field within its
documented range (envelope rates/levels and depths 0-99, curves 0-3,
rate scale 0-7, AMS 0-3, KVS 0-7, output level 0-99, mode 0-1,
coarse 0-31, fine 0-99, detune 0-14, pitch EG 0-99, algorithm 0-31,
feedback 0-7, sync flags 0-1, LFO depths 0-99, wave 0-7, PMS 0-7,
transpose 0-48, name bytes 7-bit ASCII). -/
def ValidVoice (v : List Nat) : Prop :=
  v.length = 155
  -- full-byte operator fields (EG, breakpoint, depths / OL / fine), all 0-99
  ∧ (∀ op, op < 6 → (∀ k, k < 11 → v.getD (21 * op + k) 0 ≤ 99)
       ∧ v.getD (21 * op + 16) 0 ≤ 99 ∧ v.getD (21 * op + 19) 0 ≤ 99)
  -- sub-byte operator fields, OP6 down to OP1 at bases 0, 21, ..., 105
  ∧ OpMaskedOk v 0 ∧ OpMaskedOk v 21 ∧ OpMaskedOk v 42
  ∧ OpMaskedOk v 63 ∧ OpMaskedOk v 84 ∧ OpMaskedOk v 105
  -- pitch EG
  ∧ (∀ k, k < 8 → v.getD (126 + k) 0 ≤ 99)
  -- LFO speed/delay/PMD/AMD
  ∧ (∀ k, k < 4 → v.getD (137 + k) 0 ≤ 99)
  -- global sub-byte fields
  ∧ GlobalMaskedOk v
  -- name bytes
  ∧ (∀ k, k < 10 → v.getD (145 + k) 0 ≤ 127)

instance : DecidablePred ValidVoice := fun v => by
  unfold ValidVoice; infer_instance

/-! ## Bank assembler (`dx7_utils.create_bank`, post-validation core)

The Python `create_bank` reads voice sources from files and a database,
validates each with `verify_single_voice_sysex` and packs it with
`pack_single_to_bank_voice`; invalid sources are skipped.  The embedding
below starts from the resulting ordered list of validated 128-byte packed
voices and models the remaining, purely computational part: the count
checks, INIT padding, concatenation, checksum and framing. -/

/-- Result of `create_bank`: the assembled 4104-byte bank, or one of its
two distinct count-check failures. -/
inductive CreateBankResult where
  | ok (bank : List Nat)
  | noValidVoices
  | tooManyVoices
deriving DecidableEq

/-- The packed INIT voice used for padding:
`pack_single_to_bank_voice(DEFAULT_INIT_VOICE_155)`. -/
def initPackedVoice : List Nat :=
  pack_single_to_bank_voice DEFAULT_INIT_VOICE_155

/-- The 10 name bytes `f"INIT {n:02d}".ljust(10)` for `n < 100` (in
`create_bank`, `n` is always at most 32): `I N I T ⌴ d₁ d₂ ⌴ ⌴ ⌴`. -/
def initName (n : Nat) : List Nat :=
  [73, 78, 73, 84, 32, 48 + n / 10, 48 + n % 10, 32, 32, 32]

/-- One padding voice: the packed INIT template with bytes 118-127
overwritten by the name `INIT nn` (`current_init_packed[118:128] = ...`). -/
def initPatchNamed (n : Nat) : List Nat :=
  initPackedVoice.take 118 ++ initName n

/-- `dx7_utils.create_bank`, steps 3-5: fail on 0 or more than 32 voices,
pad with INIT voices named `INIT (total+i+1)`, join, add header, checksum
and terminator. -/
def create_bank (patches : List (List Nat)) : CreateBankResult :=
  let total := patches.length
  if total = 0 then .noValidVoices
  else if 32 < total then .tooManyVoices
  else
    let allPatches := patches ++
      (List.range (32 - total)).map (fun i => initPatchNamed (total + i + 1))
    let bankData := allPatches.flatten
    .ok ([0xF0, 0x43, 0x00, 0x09, 0x20, 0x00] ++ bankData ++
         [checksum bankData, 0xF7])

/-- The bank bytes of a `CreateBankResult`, `[]` on failure. -/
def bankBytesOf : CreateBankResult → List Nat
  | .ok bank => bank
  | _ => []

/-- The 10-byte name field of 0-based bank slot `s`: bytes
`6 + 128*s + 118 .. 6 + 128*s + 127` of the bank file. -/
def slotNameBytes (bank : List Nat) (s : Nat) : List Nat :=
  ((bank.drop (6 + 128 * s + 118)).take 10)

/-! ## Parameter edit engine (`tx802_utils.edit_performance`)

The engine is modelled per key-value pair (`edit_one`); the driver
`edit_performance` folds it over the edits in order, mirroring the
`for key, value in kwargs.items()` loop with its partial-continuation
policy.  The MIDI transport is abstracted away: a constructed message is
considered sent (a send is modelled as always succeeding). -/

def YAMAHA_ID : Nat := 0x43

def PCED_PARAM_CHANGE_GROUP_SUBGROUP_BYTE : Nat := 0x1A

def REMOTE_SWITCH_GROUP_SUBGROUP_BYTE : Nat := 0x1B

/-- Device-id byte: `internal = device_id - 1`; out of 0..15 falls back to
0 (with a warning, i.e. without failing); byte is `0x10 + internal`. -/
def deviceIdByte (deviceId : Int) : Nat :=
  let internal := deviceId - 1
  let internal := if 0 ≤ internal ∧ internal ≤ 15 then internal else 0
  (16 + internal).toNat

/-- A user-supplied parameter value: Python `int` or `str`. -/
inductive PVal where
  | int (n : Int)
  | str (s : String)
deriving DecidableEq

/-- One distinct warn-and-skip outcome per `continue` site of
`edit_performance`. -/
inductive EditError where
  | invalidTG
  | unknownNote
  | unknownPan
  | badTGValue
  | presetRange
  | presetFormat
  | unknownParam
  | outOfRange
  | badValue
  | vnumInternalRange
deriving DecidableEq

/-- `param_map` value type: `'int'`, `'char'` or `'kasg'`. -/
inductive PType where
  | int
  | char
  | kasg
deriving DecidableEq

/-- One `param_map` entry: parameter number, accepted user range,
value type, and the 1-based-to-0-based adjustment flag. -/
structure PEntry where
  pnum : Nat
  umin : Int
  umax : Int
  ptype : PType
  adjust : Bool
deriving DecidableEq

/-- Python `str.upper()` (ASCII). -/
def pyUpper (s : String) : String := String.mk (s.data.map Char.toUpper)

/-- Python `str.startswith`. -/
def strStartsWith (s pre : String) : Bool := pre.data.isPrefixOf s.data

/-- The suffix of `s` after its first `n` characters (Python `s[n:]`). -/
def strDrop (s : String) (n : Nat) : String := String.mk (s.data.drop n)

/-- Python `str.strip()`: whitespace removed from both ends. -/
def pyStrip (s : String) : String :=
  String.mk (((s.data.dropWhile Char.isWhitespace).reverse.dropWhile
    Char.isWhitespace).reverse)

/-- Numeric value of a digit sequence. -/
def digitsVal (l : List Char) : Nat :=
  l.foldl (fun a c => a * 10 + (c.toNat - 48)) 0

/-- Python `int(str)` on the inputs the source feeds it (an optional sign
followed by decimal digits); `none` models the `ValueError`. -/
def pyToInt? (s : String) : Option Int :=
  match s.data with
  | '-' :: rest =>
    if !rest.isEmpty && rest.all Char.isDigit then some (-(digitsVal rest : Int))
    else none
  | l =>
    if !l.isEmpty && l.all Char.isDigit then some ((digitsVal l : Int))
    else none

/-- Numeric value of a digit string (callers guard with `tgOk`). -/
def tgNum (tg : String) : Nat := digitsVal tg.data

/-- The source's tone-generator suffix check:
`tg.isdigit() and 1 <= int(tg) <= 8`. -/
def tgOk (tg : String) : Bool :=
  !tg.data.isEmpty && tg.data.all Char.isDigit
    && decide (1 ≤ tgNum tg) && decide (tgNum tg ≤ 8)

/-- `str(value)` for a `PVal`. -/
def pvalStr : PVal → String
  | .int n => toString n
  | .str s => s

/-- `int(value)`: identity on ints, decimal parse on strings
(`None` models the `ValueError`). -/
def pvalToInt : PVal → Option Int
  | .int n => some n
  | .str s => pyToInt? s

/-- `tx802_utils.get_midi_note_name`. -/
def get_midi_note_name (n : Nat) : String :=
  if n ≤ 127 then
    ((["C", "C#", "D", "D#", "E", "F"] ++
      ["F#", "G", "G#", "A", "A#", "B"]).getD (n % 12) "")
      ++ toString ((n : Int) / 12 - 2)
  else "Invalid"

/-- `tx802_utils.MIDI_NOTES`: the 128 note names. -/
def MIDI_NOTES : List String := (List.range 128).map get_midi_note_name

/-- The `pan_map` dictionary of the PAN branch. -/
def panLookup (s : String) : Option Nat :=
  if s == "OFF" then some 0
  else if s == "I" then some 1
  else if s == "LEFT" then some 1
  else if s == "II" then some 2
  else if s == "RIGHT" then some 2
  else if s == "I+II" then some 3
  else if s == "CENTER" then some 3
  else none

/-- The PRESET regular expression `([ICAB])([0-6]\d)` (full match) with
its bank-letter offsets: returns `(base, num)` on a match. -/
def presetMatch (s : String) : Option (Nat × Nat) :=
  match s.data with
  | [b, d1, d2] =>
    if (b == 'I' || b == 'C' || b == 'A' || b == 'B')
        && (d1.isDigit && decide (d1 ≤ '6')) && d2.isDigit then
      let base : Nat := if b == 'I' then 0 else if b == 'C' then 64
                        else if b == 'A' then 128 else 192
      some (base, (d1.toNat - 48) * 10 + (d2.toNat - 48))
    else none
  | _ => none

/-- The derived-key resolution prefix chain of `edit_performance`
(NOTELOW, NOTEHIGH, PAN, TG, RXCH-Omni, PRESET, NOTESHIFT).  The source
writes sequential `if` statements; since no rewritten key (`NTMTL`,
`NTMTH`, `OUTCH`, `LINK`, `VNUM`, `NSHFT`) matches a later prefix, the
chain below is equivalent.  Input key is already upper-cased. -/
def resolveKey (key : String) (value : PVal) : Except EditError (String × PVal) :=
  if strStartsWith key "NOTELOW" then
    let tg := strDrop key 7
    if tgOk tg then
      match MIDI_NOTES.findIdx? (fun s => s == pyUpper (pvalStr value)) with
      | some idx => .ok ("NTMTL" ++ tg, .int idx)
      | none => .error .unknownNote
    else .error .invalidTG
  else if strStartsWith key "NOTEHIGH" then
    let tg := strDrop key 8
    if tgOk tg then
      match MIDI_NOTES.findIdx? (fun s => s == pyUpper (pvalStr value)) with
      | some idx => .ok ("NTMTH" ++ tg, .int idx)
      | none => .error .unknownNote
    else .error .invalidTG
  else if strStartsWith key "PAN" then
    let tg := strDrop key 3
    if tgOk tg then
      match panLookup (pyUpper (pvalStr value)) with
      | some n => .ok ("OUTCH" ++ tg, .int n)
      | none => .error .unknownPan
    else .error .invalidTG
  else if strStartsWith key "TG" then
    let tg := strDrop key 2
    if tgOk tg then
      let s := pyUpper (pvalStr value)
      if s == "ON" then .ok ("LINK" ++ tg, .int (tgNum tg))
      else if s == "OFF" then .ok ("LINK" ++ tg, .int 0)
      else .error .badTGValue
    else .error .invalidTG
  else if strStartsWith key "RXCH" then
    -- value rewrite only: "Omni" (stripped, upper-cased) becomes 16
    match value with
    | .str s => if pyUpper (pyStrip s) == "OMNI" then .ok (key, .int 16) else .ok (key, value)
    | _ => .ok (key, value)
  else if strStartsWith key "PRESET" then
    let tg := strDrop key 6
    if tgOk tg then
      match presetMatch (pyUpper (pvalStr value)) with
      | some (base, num) =>
        if 1 ≤ num ∧ num ≤ 64 then
          -- numeric = base + (num - 1); value = numeric + 1
          .ok ("VNUM" ++ tg, .int (base + num))
        else .error .presetRange
      | none => .error .presetFormat
    else .error .invalidTG
  else if strStartsWith key "NOTESHIFT" then
    let tg := strDrop key 9
    if tgOk tg then .ok ("NSHFT" ++ tg, value) else .error .invalidTG
  else .ok (key, value)

/-- The static `param_map`, built exactly as in the source: for each tone
generator 1-8 the twelve per-TG entries, then PNAM 1-20. -/
def paramMap : List (String × PEntry) :=
  ((List.range 8).map (fun t =>
    let tg := toString (t + 1)
    [("KASG" ++ tg, PEntry.mk (80 + t) 0 1 .kasg false),
     ("VCHOFS" ++ tg, PEntry.mk (0 + t) 0 7 .int false),
     ("RXCH" ++ tg, PEntry.mk (8 + t) 1 16 .int true),
     ("VNUM" ++ tg, PEntry.mk (16 + t) 1 256 .int true),
     ("DETUNE" ++ tg, PEntry.mk (24 + t) 0 14 .int false),
     ("OUTVOL" ++ tg, PEntry.mk (32 + t) 0 99 .int false),
     ("OUTCH" ++ tg, PEntry.mk (40 + t) 0 3 .int false),
     ("NTMTL" ++ tg, PEntry.mk (48 + t) 0 127 .int false),
     ("NTMTH" ++ tg, PEntry.mk (56 + t) 0 127 .int false),
     ("NSHFT" ++ tg, PEntry.mk (64 + t) 0 48 .int false),
     ("FDAMP" ++ tg, PEntry.mk (72 + t) 0 1 .int false),
     ("LINK" ++ tg, PEntry.mk t 0 8 .int true)])).flatten
  ++ (List.range 20).map (fun idx =>
    ("PNAM" ++ toString (idx + 1), PEntry.mk (96 + idx) 0 127 .char false))

/-- Value validation and conversion of `edit_performance` for one resolved
parameter.  The DETUNE special block mirrors the source control flow: it
can reject, but any value it assigns to `internal_value` is overwritten,
because `DETUNE` keys do not start with `NSHFT` and therefore also run the
generic validation in the `else` branch below (which re-checks the range
and re-assigns `internal_value`). -/
def computeInternal (name : String) (e : PEntry) (value : PVal) : Except EditError Int :=
  match e.ptype with
  | .int =>
    match pvalToInt value with
    | none => .error .badValue
    | some uv =>
      -- special DETUNE handling: allow -7..+7 around center
      match (if strStartsWith name "DETUNE" then
               (if -7 ≤ uv ∧ uv ≤ 7 then some (uv + 7)
                else if 0 ≤ uv ∧ uv ≤ e.umax then some uv
                else none)
             else some 0) with
      | none => .error .outOfRange
      | some _ =>   -- result discarded: see the doc comment
        -- special NSHFT handling: allow -24..+24 around center
        if strStartsWith name "NSHFT" then
          if -24 ≤ uv ∧ uv ≤ 24 then .ok (uv + 24)
          else if 0 ≤ uv ∧ uv ≤ e.umax then .ok uv
          else .error .outOfRange
        else
          -- generic validation against the user-expected range
          if e.umin ≤ uv ∧ uv ≤ e.umax then
            if e.adjust then
              if strStartsWith name "LINK" && decide (uv = 0) then .ok 0
              else if strStartsWith name "RXCH" && decide (uv = 16) then .ok 16
              else .ok (uv - 1)
            else .ok uv
          else .error .outOfRange
  | .char =>
    match value with
    | .str s =>
      match s.data with
      | [c] =>
        if e.umin ≤ (c.toNat : Int) ∧ (c.toNat : Int) ≤ e.umax then .ok c.toNat
        else .error .outOfRange
      | _ => .error .badValue
    | .int n =>
      if e.umin ≤ n ∧ n ≤ e.umax then .ok n else .error .outOfRange
  | .kasg =>
    match pvalToInt value with
    | none => .error .badValue
    | some uv =>
      if 0 ≤ uv ∧ uv ≤ 1 then .ok uv else .error .outOfRange

/-- Outcome of processing one parameter: the SysEx data bytes as handed
to the transport (without the F0/F7 framing that mido adds), or the
warn-and-skip error. -/
inductive EditOutcome where
  | sent (msg : List Nat)
  | failed (e : EditError)
deriving DecidableEq

/-- SysEx data construction: VNUM parameters are sent as two 7-bit bytes
(MSB = `internal >> 7 & 0x7F`, LSB = `internal & 0x7F`) after the
0-255 internal-range recheck; all others as a single value byte. -/
def buildMsg (name : String) (pnum : Nat) (internal : Int) (devByte : Nat) : EditOutcome :=
  if strStartsWith name "VNUM" then
    if 0 ≤ internal ∧ internal ≤ 255 then
      .sent [YAMAHA_ID, devByte, PCED_PARAM_CHANGE_GROUP_SUBGROUP_BYTE, pnum,
             internal.toNat / 128 % 128, internal.toNat % 128]
    else .failed .vnumInternalRange
  else
    .sent [YAMAHA_ID, devByte, PCED_PARAM_CHANGE_GROUP_SUBGROUP_BYTE, pnum,
           internal.toNat]

/-- Processing of a single key-value pair of `edit_performance`:
upper-case the key, resolve derived keys, look it up in `param_map`
(case-insensitive; keys there are already upper case), validate and
convert the value, and construct the Parameter-Change data bytes. -/
def edit_one (key : String) (value : PVal) (deviceId : Int) : EditOutcome :=
  match resolveKey (pyUpper key) value with
  | .error e => .failed e
  | .ok (key2, value2) =>
    match paramMap.find? (fun entry => entry.fst == key2) with
    | none => .failed .unknownParam
    | some (name, entry) =>
      match computeInternal name entry value2 with
      | .error e => .failed e
      | .ok internal => buildMsg name entry.pnum internal (deviceIdByte deviceId)

/-- `tx802_utils.edit_performance`: processes the edits in order; a failed
key sets `all_success = False` but processing continues.  Returns the
overall success flag and the messages sent. -/
def edit_performance (deviceId : Int) (edits : List (String × PVal)) :
    Bool × List (List Nat) :=
  edits.foldl (fun acc kv =>
    match edit_one kv.fst kv.snd deviceId with
    | .sent msg => (acc.fst, acc.snd ++ [msg])
    | .failed _ => (false, acc.snd)) (true, [])

/-! ## Remote button protocol (`tx802_utils.press_button` and the
text-entry sub-protocol) -/

/-- The `BUTTON_CODES` table of `press_button`. -/
def BUTTON_CODES : List (String × Nat) := [
  ("RESET", 64), ("INT", 75), ("CRT", 76), ("LOWERCASE", 78), ("UPPERCASE", 79),
  ("0", 65), ("1", 66), ("2", 67), ("3", 68), ("4", 69),
  ("5", 70), ("6", 71), ("7", 72), ("8", 73), ("9", 74),
  ("DASH", 80), ("SPACE", 77),
  ("CURSOR_LEFT", 75), ("CURSOR_RIGHT", 76), ("ENTER", 77),
  ("MINUS_ONE", 78), ("OFF", 78), ("NO", 78),
  ("PLUS_ONE", 79), ("ON", 79), ("YES", 79),
  ("STORE", 88), ("COMPARE", 88),
  ("PERFORM_SELECT", 81), ("VOICE_SELECT", 82), ("SYSTEM_SETUP", 83),
  ("UTILITY", 84), ("PERFORM_EDIT", 85), ("VOICE_EDIT_I", 86), ("VOICE_EDIT_II", 87),
  ("TG1", 89), ("TG2", 90), ("TG3", 91), ("TG4", 92),
  ("TG5", 93), ("TG6", 94), ("TG7", 95), ("TG8", 96)]

/-- Outcome of `press_button`: a Remote-Switch message was sent, the
command was a WAIT (sleep, report success, send nothing), or the call
returned `False` (unknown button / bad CODE). -/
inductive PressOutcome where
  | sentMsg (msg : List Nat)
  | waited
  | failed
deriving DecidableEq

/-- The text after the first `=` (Python `button_name.split('=')[1]`). -/
def afterEq (s : String) : String :=
  String.mk (((s.data.dropWhile (fun c => c ≠ '=')).drop 1))

/-- Button-code resolution of `press_button`: `CODE=n` parses `n` and
checks 0..127; otherwise the `BUTTON_CODES` table decides.  (In the
source, any name starting with `WAIT` is intercepted before this.) -/
def buttonCode (b : String) : Option Nat :=
  if strStartsWith b "CODE=" then
    match pyToInt? (afterEq b) with
    | some c => if 0 ≤ c ∧ c ≤ 127 then some c.toNat else none
    | none => none
  else (BUTTON_CODES.find? (fun e => e.fst == b)).map (fun e => e.snd)

/-- `tx802_utils.press_button`: upper-case the name; `WAIT...` sleeps and
reports success without sending; then resolve the code (failure returns
`False`); device ids outside 1..16 fall back to 1 (warning only); finally
the Remote-Switch data bytes are
`[YAMAHA_ID, id_byte, 0x1B, button_code, 0x00]`. -/
def press_button (button : String) (deviceId : Int) : PressOutcome :=
  let b := pyUpper button
  if strStartsWith b "WAIT" then .waited
  else
    match buttonCode b with
    | none => .failed
    | some code =>
      .sentMsg [YAMAHA_ID, deviceIdByte deviceId,
                REMOTE_SWITCH_GROUP_SUBGROUP_BYTE, code, 0x00]

/-- `tx802_utils.get_button_sequence_for_char`: the multi-tap table as a
list of `(button name, tap count)` pairs; unsupported characters fall back
to a period (`DASH` three times) with a warning. -/
def get_button_sequence_for_char (c : Char) : List (String × Nat) :=
  match c with
  | 'a' => [("LOWERCASE", 1), ("0", 2)]
  | 'b' => [("LOWERCASE", 1), ("0", 3)]
  | 'c' => [("LOWERCASE", 1), ("0", 4)]
  | 'd' => [("LOWERCASE", 1), ("1", 2)]
  | 'e' => [("LOWERCASE", 1), ("1", 3)]
  | 'f' => [("LOWERCASE", 1), ("1", 4)]
  | 'g' => [("LOWERCASE", 1), ("2", 2)]
  | 'h' => [("LOWERCASE", 1), ("2", 3)]
  | 'i' => [("LOWERCASE", 1), ("2", 4)]
  | 'j' => [("LOWERCASE", 1), ("3", 2)]
  | 'k' => [("LOWERCASE", 1), ("3", 3)]
  | 'l' => [("LOWERCASE", 1), ("3", 4)]
  | 'm' => [("LOWERCASE", 1), ("4", 2)]
  | 'n' => [("LOWERCASE", 1), ("4", 3)]
  | 'o' => [("LOWERCASE", 1), ("4", 4)]
  | 'p' => [("LOWERCASE", 1), ("5", 2)]
  | 'q' => [("LOWERCASE", 1), ("5", 3)]
  | 'r' => [("LOWERCASE", 1), ("5", 4)]
  | 's' => [("LOWERCASE", 1), ("6", 2)]
  | 't' => [("LOWERCASE", 1), ("6", 3)]
  | 'u' => [("LOWERCASE", 1), ("6", 4)]
  | 'v' => [("LOWERCASE", 1), ("7", 2)]
  | 'w' => [("LOWERCASE", 1), ("7", 3)]
  | 'x' => [("LOWERCASE", 1), ("7", 4)]
  | 'y' => [("LOWERCASE", 1), ("8", 2)]
  | 'z' => [("LOWERCASE", 1), ("8", 3)]
  | 'A' => [("UPPERCASE", 1), ("0", 2)]
  | 'B' => [("UPPERCASE", 1), ("0", 3)]
  | 'C' => [("UPPERCASE", 1), ("0", 4)]
  | 'D' => [("UPPERCASE", 1), ("1", 2)]
  | 'E' => [("UPPERCASE", 1), ("1", 3)]
  | 'F' => [("UPPERCASE", 1), ("1", 4)]
  | 'G' => [("UPPERCASE", 1), ("2", 2)]
  | 'H' => [("UPPERCASE", 1), ("2", 3)]
  | 'I' => [("UPPERCASE", 1), ("2", 4)]
  | 'J' => [("UPPERCASE", 1), ("3", 2)]
  | 'K' => [("UPPERCASE", 1), ("3", 3)]
  | 'L' => [("UPPERCASE", 1), ("3", 4)]
  | 'M' => [("UPPERCASE", 1), ("4", 2)]
  | 'N' => [("UPPERCASE", 1), ("4", 3)]
  | 'O' => [("UPPERCASE", 1), ("4", 4)]
  | 'P' => [("UPPERCASE", 1), ("5", 2)]
  | 'Q' => [("UPPERCASE", 1), ("5", 3)]
  | 'R' => [("UPPERCASE", 1), ("5", 4)]
  | 'S' => [("UPPERCASE", 1), ("6", 2)]
  | 'T' => [("UPPERCASE", 1), ("6", 3)]
  | 'U' => [("UPPERCASE", 1), ("6", 4)]
  | 'V' => [("UPPERCASE", 1), ("7", 2)]
  | 'W' => [("UPPERCASE", 1), ("7", 3)]
  | 'X' => [("UPPERCASE", 1), ("7", 4)]
  | 'Y' => [("UPPERCASE", 1), ("8", 2)]
  | 'Z' => [("UPPERCASE", 1), ("8", 3)]
  | '0' => [("0", 1)]
  | '1' => [("1", 1)]
  | '2' => [("2", 1)]
  | '3' => [("3", 1)]
  | '4' => [("4", 1)]
  | '5' => [("5", 1)]
  | '6' => [("6", 1)]
  | '7' => [("7", 1)]
  | '8' => [("8", 1)]
  | '9' => [("9", 1)]
  | ' ' => [("SPACE", 1)]
  | '!' => [("8", 4)]
  | '#' => [("9", 2)]
  | '&' => [("9", 3)]
  | '-' => [("DASH", 1)]
  | '/' => [("DASH", 2)]
  | '.' => [("DASH", 3)]
  | '\'' => [("DASH", 4)]
  | _ => [("DASH", 3)]

/-- `tx802_utils.process_text_parameter`: cursor to position 1 (19 times
left), truncate to 20 characters, pad with spaces to exactly 20, then per
character emit its buttons with the case-toggle optimization (a
case-change button only when it differs from the running case, initially
unset) and a `CURSOR_RIGHT` after every character that is not a space and
is not the 20th. -/
def process_text_parameter (text : String) : List (String × Nat) :=
  let cs := text.data
  let cs := if 20 < cs.length then cs.take 20 else cs
  let padded := cs ++ List.replicate (20 - cs.length) ' '
  (padded.enum.foldl
    (fun (st : Option String × List (String × Nat)) ic =>
      let afterChar := (get_button_sequence_for_char ic.snd).foldl
        (fun (st2 : Option String × List (String × Nat)) bp =>
          if bp.fst == "UPPERCASE" || bp.fst == "LOWERCASE" then
            if st2.fst ≠ some bp.fst then (some bp.fst, st2.snd ++ [bp])
            else st2
          else (st2.fst, st2.snd ++ [bp])) st
      if ic.snd ≠ ' ' ∧ ic.fst < 19 then
        (afterChar.fst, afterChar.snd ++ [("CURSOR_RIGHT", 1)])
      else afterChar)
    ((none : Option String), [("CURSOR_LEFT", 19)])).snd

/-! ## Transfer orchestration (`tx802_utils.send_bank` and
`tx802_utils.send_patch_to_buffer`)

The orchestration sequencing is modelled as a function of the outcomes of
its effectful sub-steps (button sequences, payload send), returning the
overall result together with the ordered list of steps attempted.  Port
opening/closing and sleeps are omitted. -/

/-- A protocol step attempted by an orchestrated transfer. -/
inductive TxStep where
  | prtctOff
  | sendPayload
  | exitSysexButton
  | refreshButtons
  | confirmNotes
deriving DecidableEq

/-- `tx802_utils.send_bank`: after the `PRTCT_OFF` button sequence fails
the function prints `Failed to send remote control sequence. Aborting.`
and returns `False` at once; otherwise it transmits (full or partial),
after a partial transfer presses `VOICE_SELECT` to leave the stalled
receive state, and on transfer success (or with no file) runs the refresh
button sequence and the confirmation notes.  Booleans are the outcomes of
the corresponding sub-steps. -/
def send_bank (prtctOk haveFile sendOk partialTransfer exitOk refreshOk : Bool) :
    Bool × List TxStep :=
  if !prtctOk then (false, [.prtctOff])
  else
    let afterTransfer :=
      if haveFile then
        if sendOk then
          if partialTransfer then
            -- exit-button failure clears transfer_success
            (exitOk, [TxStep.prtctOff, .sendPayload, .exitSysexButton])
          else (true, [TxStep.prtctOff, .sendPayload])
        else (false, [TxStep.prtctOff, .sendPayload])
      else (true, [TxStep.prtctOff])   -- no file: confirmation still plays
    if afterTransfer.fst then
      if refreshOk then (true, afterTransfer.snd ++ [.refreshButtons, .confirmNotes])
      else (false, afterTransfer.snd ++ [.refreshButtons])
    else (false, afterTransfer.snd)

/-- `tx802_utils.send_patch_to_buffer`: rejects invalid voice data; a
failed `PRTCT_OFF` only warns (`Continuing anyway.`) and the payload send
is attempted regardless (`prtctOk` does not influence the outcome); a
failed payload send returns `False`; the trailing `VOICE_SELECT` press
result is only logged. -/
def send_patch_to_buffer (validVoice prtctOk sendOk selectOk : Bool) :
    Bool × List TxStep :=
  if !validVoice then (false, [])
  else
    if !sendOk then (false, [TxStep.prtctOff, .sendPayload])
    else (true, [TxStep.prtctOff, .sendPayload, .exitSysexButton, .confirmNotes])

/-- A concrete 4104-byte bank for the verifier analysis: all-zero
payload, checksum byte 0. -/
def zeroBank : List Nat :=
  [0xF0, 0x43, 0x00, 0x09, 0x20, 0x00] ++ (List.replicate 4096 0 ++ [0, 0xF7])

/-- A concrete 4104-byte bank whose last payload byte is 0x87 = 135 (not a
7-bit value): its payload sum is 135, so the checksum byte is
`(128 - (135 & 0x7F)) & 0x7F = 121`.  The verifier accepts it — it never
checks that payload bytes are 7-bit. -/
def highByteBank : List Nat :=
  [0xF0, 0x43, 0x00, 0x09, 0x20, 0x00] ++
    ((List.replicate 4095 0 ++ [135]) ++ [121, 0xF7])

/-! ## Theorems -/

theorem getD_range_map (h : Nat → Nat) (n j : Nat) (hj : j < n) :
    ((List.range n).map h).getD j 0 = h j := by
  rw [List.getD_eq_getElem _ _ (by simpa using hj)]
  simp

/-- C6: for every byte sequence `data`, `checksum data` equals
`(128 - (sum(data) & 0x7F)) & 0x7F`, the sum plus the checksum vanishes
modulo 0x80, and the inline bank checksum computation of the bank
verifier is the same function. -/
theorem C6_checksum_spec (data : List Nat) :
    checksum data = (128 - data.sum % 128) % 128
    ∧ (data.sum + checksum data) % 128 = 0
    ∧ bank_checksum_calc data = checksum data := by
  refine ⟨rfl, ?_, rfl⟩
  unfold checksum
  omega

/-- C7: the text-entry encoding of `"Ab 1"` is exactly the listed button
sequence: after the initial cursor homing, `UPPERCASE` then the presses
for `A`, a single `LOWERCASE` toggle between the presses for `A` and the
presses for `b`, no case toggle before the space, a `CURSOR_RIGHT` after
`A`, after `b` and after `1` but none after any space, and 20 encoded
character positions in total (the input padded with 16 spaces).  The
trailing conjuncts state the counts explicitly: 2 case buttons, 3 cursor
rights, 20 character emissions. -/
theorem C7_text_entry_of_Ab_1 :
    process_text_parameter "Ab 1" =
      [("CURSOR_LEFT", 19), ("UPPERCASE", 1), ("0", 2), ("CURSOR_RIGHT", 1),
       ("LOWERCASE", 1), ("0", 3), ("CURSOR_RIGHT", 1), ("SPACE", 1),
       ("1", 1), ("CURSOR_RIGHT", 1)] ++ List.replicate 16 ("SPACE", 1)
    ∧ ((process_text_parameter "Ab 1").filter
        (fun bp => bp.fst == "UPPERCASE" || bp.fst == "LOWERCASE")).length = 2
    ∧ ((process_text_parameter "Ab 1").filter
        (fun bp => bp.fst == "CURSOR_RIGHT")).length = 3
    ∧ ((process_text_parameter "Ab 1").filter
        (fun bp => !(bp.fst == "CURSOR_RIGHT" || bp.fst == "CURSOR_LEFT"
           || bp.fst == "UPPERCASE" || bp.fst == "LOWERCASE"))).length = 20 := by
  decide

/-- C1 counterexample: the claim asserts that `edit_performance` with
`DETUNE3 = -7` succeeds and sends one message with value byte 0, and that
`DETUNE3 = 8` fails out of range sending nothing.  On the code,
`DETUNE3 = -7` is rejected out of range with no message sent, and
`DETUNE3 = 8` succeeds, sending one message with value byte 8. -/
theorem C1_counterexample :
    edit_performance 1 [("DETUNE3", PVal.int (-7))] = (false, [])
    ∧ edit_performance 1 [("DETUNE3", PVal.int 8)] =
        (true, [[0x43, 0x10, 0x1A, 26, 8]]) := by
  decide

/-- C1 amended: `edit_performance 1 [("DETUNE3", 0)]` succeeds and sends
exactly one Parameter-Change data packet with value byte 0;
`edit_performance 1 [("DETUNE3", -7)]` fails with an out-of-range warning
and sends no message (the relative-to-absolute conversion of the DETUNE
special case is discarded by the generic range check that follows it);
`edit_performance 1 [("DETUNE3", 8)]` succeeds and sends exactly one
message with value byte 8 (absolute 0..14 is passed through). -/
theorem C1_detune_behavior :
    edit_performance 1 [("DETUNE3", PVal.int 0)] =
        (true, [[0x43, 0x10, 0x1A, 26, 0]])
    ∧ edit_performance 1 [("DETUNE3", PVal.int (-7))] = (false, [])
    ∧ edit_performance 1 [("DETUNE3", PVal.int 8)] =
        (true, [[0x43, 0x10, 0x1A, 26, 8]]) := by
  decide

/-- C3 counterexample: the claim asserts that `send_bank` still attempts
the payload transmission after a failed `PRTCT_OFF` sequence.  With the
protect-disable step failing and a file to send, `send_bank` returns
failure and its step trace does not contain the payload transmission. -/
theorem C3_counterexample :
    (send_bank false true true false true true).fst = false
    ∧ TxStep.sendPayload ∉ (send_bank false true true false true true).snd := by
  decide

/-- C3 amended: when the `PRTCT_OFF` button sequence fails, `send_bank`
reports the failure and aborts at once — it returns failure and never
attempts the payload transmission, whatever the other step outcomes.  The
continue-despite-failure policy belongs to `send_patch_to_buffer`, which
attempts the payload transmission even when `PRTCT_OFF` failed. -/
theorem C3_prtct_off_abort_policy :
    (∀ haveFile sendOk partialTransfer exitOk refreshOk,
      send_bank false haveFile sendOk partialTransfer exitOk refreshOk =
        (false, [TxStep.prtctOff]))
    ∧ (∀ sendOk selectOk,
        TxStep.sendPayload ∈ (send_patch_to_buffer true false sendOk selectOk).snd) := by
  decide

theorem initPackedVoice_length : initPackedVoice.length = 128 := by
  simp [initPackedVoice, pack_single_to_bank_voice]

theorem initPatchNamed_length (n : Nat) : (initPatchNamed n).length = 128 := by
  simp [initPatchNamed, initName, List.length_take, initPackedVoice_length]

theorem flatten_length_all (L : List (List Nat)) (h : ∀ x ∈ L, x.length = 128) :
    L.flatten.length = 128 * L.length := by
  induction L with
  | nil => simp
  | cons a t ih =>
    have ha : a.length = 128 := h a (by simp)
    have ht : ∀ x ∈ t, x.length = 128 := fun x hx => h x (by simp [hx])
    simp [ha, ih ht, Nat.mul_succ]
    omega

theorem flatten_drop_all (L : List (List Nat)) (suffix : List Nat) (s : Nat)
    (h : ∀ x ∈ L, x.length = 128) (hs : s ≤ L.length) :
    (L.flatten ++ suffix).drop (128 * s) = (L.drop s).flatten ++ suffix := by
  induction s generalizing L with
  | zero => simp
  | succ n ih =>
    cases L with
    | nil => simp at hs
    | cons a t =>
      have ha : a.length = 128 := h a (by simp)
      have ht : ∀ x ∈ t, x.length = 128 := fun x hx => h x (by simp [hx])
      have key : ((a :: t).flatten ++ suffix).drop (128 * (n + 1)) =
          (t.flatten ++ suffix).drop (128 * n) := by
        rw [List.flatten_cons, List.append_assoc,
          show 128 * (n + 1) = a.length + 128 * n by omega, List.drop_append]
      rw [key, ih t ht (by simpa using hs)]
      simp

/-- Core bank-assembly fact: with 1..32 validated 128-byte voices,
`create_bank` succeeds with a 4104-byte bank whose padding slot `j`
(0-based, `patches.length ≤ j < 32`) carries the name `INIT (j+1)`. -/
theorem create_bank_ok_names (patches : List (List Nat))
    (hl : ∀ p ∈ patches, p.length = 128)
    (h1 : 1 ≤ patches.length) (h2 : patches.length ≤ 32) :
    ∃ B, create_bank patches = .ok B ∧ B.length = 4104 ∧
      ∀ j, patches.length ≤ j → j < 32 → slotNameBytes B j = initName (j + 1) := by
  have hne : ¬ (patches.length = 0) := by omega
  have hgt : ¬ (32 < patches.length) := by omega
  have hallP : ∀ x ∈ patches ++ (List.range (32 - patches.length)).map
      (fun i => initPatchNamed (patches.length + i + 1)), x.length = 128 := by
    intro x hx
    rcases List.mem_append.mp hx with hx | hx
    · exact hl x hx
    · obtain ⟨i, _, rfl⟩ := List.mem_map.mp hx
      exact initPatchNamed_length _
  refine ⟨_, by unfold create_bank; rw [if_neg hne, if_neg hgt], ?_, ?_⟩
  · -- length 6 + 4096 + 2
    rw [List.length_append, List.length_append, flatten_length_all _ hallP]
    simp
    omega
  · intro j hj1 hj2
    unfold slotNameBytes
    -- peel the 6-byte header
    rw [show (6 + 128 * j + 118 : Nat) = 6 + (128 * j + 118) by omega,
      List.append_assoc,
      show (6 : Nat) = ([0xF0, 0x43, 0x00, 0x09, 0x20, 0x00] : List Nat).length
        from by simp, List.drop_append]
    -- split the drop at the slot boundary and jump over the first j slots
    rw [← List.drop_drop, flatten_drop_all _ _ j hallP (by simp; omega)]
    -- the first j slots cover all real voices: land inside the padding
    rw [show j = patches.length + (j - patches.length) by omega,
      List.drop_append]
    -- expose padding voice number (j - patches.length)
    have hpadlen : j - patches.length <
        ((List.range (32 - patches.length)).map
          (fun i => initPatchNamed (patches.length + i + 1))).length := by
      simp
      omega
    rw [List.drop_eq_getElem_cons hpadlen]
    have hgetj : ((List.range (32 - patches.length)).map
        (fun i => initPatchNamed (patches.length + i + 1)))[j - patches.length]
        = initPatchNamed (j + 1) := by
      simp only [List.getElem_map, List.getElem_range]
      congr 1
      omega
    rw [hgetj]
    -- within the slot: skip the 118 template bytes, take the 10 name bytes
    rw [List.flatten_cons, initPatchNamed, List.append_assoc, List.append_assoc,
      List.drop_left' (by simp [List.length_take, initPackedVoice_length]),
      List.take_left' (by simp [initName])]
    congr 1
    omega

set_option maxRecDepth 4000 in
/-- C2 counterexample: the claim names the k-th padding voice `INIT k`
(so the first padding voice of a one-voice bank would be `INIT 01`); the
code names it `INIT (N+k)`: the first padding slot of the bank built from
one voice carries `INIT 02`, not `INIT 01`. -/
theorem C2_counterexample :
    slotNameBytes (bankBytesOf (create_bank [initPackedVoice])) 1 = initName 2
    ∧ initName 2 ≠ initName 1
    ∧ create_bank [initPackedVoice] ≠ .noValidVoices
    ∧ create_bank [initPackedVoice] ≠ .tooManyVoices := by
  decide

/-- C2 amended: for `create_bank` with `N` valid voice sources
(`1 ≤ N < 32`, each packed voice 128 bytes), the k-th padding voice
(1-based among the padding voices) has its 10-byte name field set to
`INIT nn` with `nn = N + k`, zero-padded to two digits — the padding
names run `INIT (N+1) .. INIT 32`. -/
theorem C2_padding_names (patches : List (List Nat)) (N k : Nat)
    (hN : patches.length = N) (hl : ∀ p ∈ patches, p.length = 128)
    (h1 : 1 ≤ N) (h2 : N < 32) (hk1 : 1 ≤ k) (hk2 : k ≤ 32 - N) :
    ∃ B, create_bank patches = .ok B ∧
      slotNameBytes B (N + k - 1) = initName (N + k) := by
  obtain ⟨B, hB, _, hnames⟩ := create_bank_ok_names patches hl (by omega) (by omega)
  refine ⟨B, hB, ?_⟩
  rw [show N + k = (N + k - 1) + 1 by omega]
  exact hnames (N + k - 1) (by omega) (by omega)

/-- C4: `create_bank` with no valid voices fails with the no-valid-voices
error and produces no bank; with 33 valid sources it fails with the
too-many-voices error and produces no bank; with exactly one valid
128-byte source it produces a 4104-byte bank whose 31 padding slots
(0-based slots 1..31) carry the names `INIT 02` .. `INIT 32`. -/
theorem C4_create_bank_counts :
    create_bank [] = .noValidVoices
    ∧ (∀ patches : List (List Nat), patches.length = 33 →
        create_bank patches = .tooManyVoices)
    ∧ (∀ p : List Nat, p.length = 128 →
        ∃ B, create_bank [p] = .ok B ∧ B.length = 4104 ∧
          ∀ k, 1 ≤ k → k ≤ 31 → slotNameBytes B k = initName (k + 1)) := by
  refine ⟨by decide, ?_, ?_⟩
  · intro patches h
    rw [create_bank, if_neg (by omega), if_pos (by omega)]
  · intro p hp
    obtain ⟨B, hB, hlen, hnames⟩ := create_bank_ok_names [p]
      (by intro x hx; simp at hx; simpa [hx]) (by simp) (by simp)
    exact ⟨B, hB, hlen, fun k hk1 hk2 => hnames k (by simpa using hk1) (by omega)⟩

/-- C2 witness: the amended claim at the concrete one-voice bank built
from the packed INIT voice, with `N = 1`, `k = 1`: the first padding slot
(slot 1) is named `INIT 02`. -/
theorem C2_padding_names_witness :
    slotNameBytes (bankBytesOf (create_bank [initPackedVoice])) 1 = initName 2 := by
  obtain ⟨B, hB, hname⟩ := C2_padding_names [initPackedVoice] 1 1
    (by simp) (by intro x hx; simp at hx; simp [hx, initPackedVoice_length])
    (by omega) (by omega) (by omega) (by omega)
  rw [hB]
  simpa using hname

/-- C4 witness: the third conjunct applied at the packed INIT voice —
the one-voice bank has 4104 bytes and its slot 31 is named `INIT 32`. -/
theorem C4_create_bank_counts_witness :
    (bankBytesOf (create_bank [initPackedVoice])).length = 4104
    ∧ slotNameBytes (bankBytesOf (create_bank [initPackedVoice])) 31 = initName 32 := by
  obtain ⟨B, hB, hlen, hnames⟩ :=
    C4_create_bank_counts.2.2 initPackedVoice initPackedVoice_length
  rw [hB]
  exact ⟨hlen, by simpa using hnames 31 (by omega) (by omega)⟩

set_option maxHeartbeats 2000000 in
/-- C5: for every valid 155-byte unpacked voice (each field within its
documented range), packing to the 128-byte bank layout and unpacking back
reproduces the voice byte for byte — in particular every field, the
documented lossy sub-byte fields included, is reproduced exactly, since
for in-range fields the masks are the identity. -/
theorem C5_unpack_pack_roundtrip (v : List Nat) (hv : ValidVoice v) :
    unpack_bank_voice_to_single (pack_single_to_bank_voice v) = v := by
  obtain ⟨hlen, hfull, o0, o1, o2, o3, o4, o5, hpeg, hlfo, hglob, hname⟩ := hv
  obtain ⟨a0, a1, a2, a3, a4, a5, a6, a7⟩ := o0
  obtain ⟨b0, b1, b2, b3, b4, b5, b6, b7⟩ := o1
  obtain ⟨c0, c1, c2, c3, c4, c5, c6, c7⟩ := o2
  obtain ⟨d0, d1, d2, d3, d4, d5, d6, d7⟩ := o3
  obtain ⟨e0, e1, e2, e3, e4, e5, e6, e7⟩ := o4
  obtain ⟨f0, f1, f2, f3, f4, f5, f6, f7⟩ := o5
  obtain ⟨g0, g1, g2, g3, g4, g5, g6⟩ := hglob
  simp only [Nat.reduceAdd] at a0 a1 a2 a3 a4 a5 a6 a7 b0 b1 b2 b3 b4 b5 b6 b7 c0 c1 c2 c3 c4 c5 c6 c7 d0 d1 d2 d3 d4 d5 d6 d7 e0 e1 e2 e3 e4 e5 e6 e7 f0 f1 f2 f3 f4 f5 f6 f7
  have hg : ∀ j, j < 128 → (pack_single_to_bank_voice v).getD j 0 =
      packByte (fun x => v.getD x 0) j := by
    intro j hj
    simp only [pack_single_to_bank_voice]
    exact getD_range_map _ _ _ hj
  apply List.ext_getElem
  · simp only [unpack_bank_voice_to_single, List.length_map, List.length_range, hlen]
  intro i h1 h2
  have hi : i < 155 := by
    simpa only [unpack_bank_voice_to_single, List.length_map,
      List.length_range] using h1
  rw [show (unpack_bank_voice_to_single (pack_single_to_bank_voice v))[i] =
      unpackByte (fun j => (pack_single_to_bank_voice v).getD j 0) i from by
    simp only [unpack_bank_voice_to_single, List.getElem_map, List.getElem_range]]
  rw [← List.getD_eq_getElem v 0 h2]
  interval_cases i <;>
    (norm_num [unpackByte, hg, -List.getD_eq_getElem?_getD];
     norm_num [packByte, -List.getD_eq_getElem?_getD];
     try omega)

set_option maxRecDepth 8000 in
/-- C5 witness: the default INIT voice is a valid unpacked voice, and the
roundtrip theorem applies to it. -/
theorem C5_unpack_pack_roundtrip_witness :
    ValidVoice DEFAULT_INIT_VOICE_155
    ∧ unpack_bank_voice_to_single
        (pack_single_to_bank_voice DEFAULT_INIT_VOICE_155) = DEFAULT_INIT_VOICE_155 :=
  ⟨by decide, C5_unpack_pack_roundtrip DEFAULT_INIT_VOICE_155 (by decide)⟩

theorem getD_le_sum (l : List Nat) (i : Nat) (hi : i < l.length) :
    l.getD i 0 ≤ l.sum := by
  induction l generalizing i with
  | nil => simp at hi
  | cons a t ih =>
    cases i with
    | zero => simp
    | succ n =>
      have := ih n (by simpa using hi)
      simp only [List.getD_cons_succ, List.sum_cons]
      omega

theorem sum_set (l : List Nat) (i v : Nat) (hi : i < l.length) :
    (l.set i v).sum = l.sum - l.getD i 0 + v := by
  induction l generalizing i with
  | nil => simp at hi
  | cons a t ih =>
    cases i with
    | zero => simp; omega
    | succ n =>
      have h1 := ih n (by simpa using hi)
      have h2 := getD_le_sum t n (by simpa using hi)
      simp only [List.set_cons_succ, List.sum_cons, List.getD_cons_succ, h1]
      omega

theorem getD_set_ne (l : List Nat) (i j v : Nat) (hne : i ≠ j) :
    (l.set i v).getD j 0 = l.getD j 0 := by
  by_cases hj : j < l.length
  · rw [List.getD_eq_getElem _ _ (by simpa using hj), List.getD_eq_getElem _ _ hj,
      List.getElem_set_ne hne]
  · rw [List.getD_eq_getElem?_getD, List.getD_eq_getElem?_getD,
      List.getElem?_eq_none (by simpa using Nat.le_of_not_lt hj),
      List.getElem?_eq_none (Nat.le_of_not_lt hj)]

theorem getD_append_left_lt (l1 l2 : List Nat) (i : Nat) (h : i < l1.length) :
    (l1 ++ l2).getD i 0 = l1.getD i 0 := by
  rw [List.getD_eq_getElem _ _ (by simp; omega), List.getD_eq_getElem _ _ h]
  exact List.getElem_append_left h

theorem getD_append_right_at (l1 l2 : List Nat) (i : Nat) :
    (l1 ++ l2).getD (l1.length + i) 0 = l2.getD i 0 := by
  induction l1 with
  | nil => simp
  | cons a t ih =>
    rw [List.cons_append, List.length_cons,
      show t.length + 1 + i = (t.length + i) + 1 by omega, List.getD_cons_succ]
    exact ih

theorem set_append_right_at (l1 l2 : List Nat) (i v : Nat) :
    (l1 ++ l2).set (l1.length + i) v = l1 ++ l2.set i v := by
  have h : l1.length + i - l1.length = i := by omega
  rw [List.set_append_right _ _ (by omega), h]

theorem bankPayload_set_4101 (B : List Nat) (v : Nat) :
    bankPayload (B.set 4101 v) = (bankPayload B).set 4095 v := by
  unfold bankPayload
  rw [List.drop_set, if_neg (by omega), show (4101 - 6 : Nat) = 4095 by omega,
    List.set_take]

theorem bankPayload_getD_4095 (B : List Nat) (h : B.length = 4104) :
    (bankPayload B).getD 4095 0 = B.getD 4101 0 := by
  unfold bankPayload
  rw [List.getD_eq_getElem _ _ (by simp [h]),
    List.getD_eq_getElem _ _ (by omega)]
  rw [List.getElem_take, List.getElem_drop]

/-- Acceptance of a framed bank: any 4096-byte payload together with its
matching checksum byte, wrapped in the standard header and terminator,
passes `is_valid_dx7_bank`. -/
theorem is_valid_of_parts (payload : List Nat) (ck : Nat)
    (hplen : payload.length = 4096)
    (hck : bank_checksum_calc payload = ck) :
    is_valid_dx7_bank
      ([0xF0, 0x43, 0x00, 0x09, 0x20, 0x00] ++ (payload ++ [ck, 0xF7])) = .ok := by
  have hassoc : ([0xF0, 0x43, 0x00, 0x09, 0x20, 0x00] : List Nat) ++ (payload ++ [ck, 0xF7]) =
      (([0xF0, 0x43, 0x00, 0x09, 0x20, 0x00] : List Nat) ++ payload) ++ [ck, 0xF7] :=
    (List.append_assoc _ _ _).symm
  have hlen : (([0xF0, 0x43, 0x00, 0x09, 0x20, 0x00] : List Nat) ++
      (payload ++ [ck, 0xF7])).length = 4104 := by
    simp [hplen]
  have hidx : ∀ m, m < 6 → (([0xF0, 0x43, 0x00, 0x09, 0x20, 0x00] : List Nat) ++
      (payload ++ [ck, 0xF7])).getD m 0 =
      ([0xF0, 0x43, 0x00, 0x09, 0x20, 0x00] : List Nat).getD m 0 := by
    intro m hm
    exact getD_append_left_lt _ _ m (by simpa using hm)
  have hpay : bankPayload (([0xF0, 0x43, 0x00, 0x09, 0x20, 0x00] : List Nat) ++
      (payload ++ [ck, 0xF7])) = payload := by
    unfold bankPayload
    rw [List.drop_left' (by simp), List.take_left' hplen]
  have h4102 : (([0xF0, 0x43, 0x00, 0x09, 0x20, 0x00] : List Nat) ++
      (payload ++ [ck, 0xF7])).getD 4102 0 = ck := by
    rw [hassoc, show (4102 : Nat) = (([0xF0, 0x43, 0x00, 0x09, 0x20, 0x00] : List Nat)
      ++ payload).length + 0 by simp [hplen], getD_append_right_at]
    rfl
  have h4103 : (([0xF0, 0x43, 0x00, 0x09, 0x20, 0x00] : List Nat) ++
      (payload ++ [ck, 0xF7])).getD 4103 0 = 0xF7 := by
    rw [hassoc, show (4103 : Nat) = (([0xF0, 0x43, 0x00, 0x09, 0x20, 0x00] : List Nat)
      ++ payload).length + 1 by simp [hplen], getD_append_right_at]
    rfl
  unfold is_valid_dx7_bank
  rw [if_neg (by simp [hplen])]
  rw [if_neg (not_not_intro (Or.inl
    ⟨by rw [hidx 0 (by norm_num)]; rfl, by rw [hidx 1 (by norm_num)]; rfl,
     by rw [hidx 3 (by norm_num)]; rfl, by rw [hidx 4 (by norm_num)]; rfl,
     by rw [hidx 5 (by norm_num)]; rfl⟩))]
  rw [if_neg (by rw [h4103]; simp)]
  rw [hpay, if_neg (by rw [hplen]; simp), h4102, if_neg (by rw [hck]; simp)]

/-- C9 counterexample: the claim quantifies over every bank accepted by
the verifier and asserts that changing the last payload byte to any
different 7-bit value yields a checksum-mismatch rejection.  The verifier
also accepts banks with non-7-bit payload bytes: `highByteBank` (last
payload byte 0x87 = 135) is accepted, and flipping that byte to the
different 7-bit value 7 changes the payload sum by 128, so the bank is
still accepted rather than rejected. -/
theorem C9_counterexample :
    is_valid_dx7_bank highByteBank = .ok
    ∧ (7 : Nat) < 128
    ∧ (7 : Nat) ≠ highByteBank.getD 4101 0
    ∧ is_valid_dx7_bank (highByteBank.set 4101 7) = .ok := by
  have h4101 : highByteBank.getD 4101 0 = 135 := by
    unfold highByteBank
    rw [show ([0xF0, 0x43, 0x00, 0x09, 0x20, 0x00] : List Nat) ++
        ((List.replicate 4095 0 ++ [135]) ++ [121, 0xF7]) =
        (([0xF0, 0x43, 0x00, 0x09, 0x20, 0x00] : List Nat) ++ List.replicate 4095 0) ++
        ([135] ++ [121, 0xF7]) by simp only [List.append_assoc]]
    rw [show (4101 : Nat) = (([0xF0, 0x43, 0x00, 0x09, 0x20, 0x00] : List Nat) ++
      List.replicate 4095 0).length + 0 by
        simp only [List.length_append, List.length_replicate, List.length_cons, List.length_nil],
      getD_append_right_at]
    rfl
  refine ⟨?_, by norm_num, by rw [h4101]; norm_num, ?_⟩
  · unfold highByteBank
    apply is_valid_of_parts
    · simp only [List.length_append, List.length_replicate, List.length_cons, List.length_nil]
    · unfold bank_checksum_calc
      simp only [List.sum_append, List.sum_replicate, List.sum_cons,
        List.sum_nil, smul_eq_mul]
      norm_num
  · have hset : highByteBank.set 4101 7 =
        [0xF0, 0x43, 0x00, 0x09, 0x20, 0x00] ++
          ((List.replicate 4095 0 ++ [7]) ++ [121, 0xF7]) := by
      unfold highByteBank
      rw [show ([0xF0, 0x43, 0x00, 0x09, 0x20, 0x00] : List Nat) ++
          ((List.replicate 4095 0 ++ [135]) ++ [121, 0xF7]) =
          (([0xF0, 0x43, 0x00, 0x09, 0x20, 0x00] : List Nat) ++ List.replicate 4095 0) ++
          ([135] ++ [121, 0xF7]) by simp only [List.append_assoc]]
      rw [show (4101 : Nat) = (([0xF0, 0x43, 0x00, 0x09, 0x20, 0x00] : List Nat) ++
        List.replicate 4095 0).length + 0 by
          simp only [List.length_append, List.length_replicate, List.length_cons, List.length_nil],
        set_append_right_at]
      simp only [List.cons_append, List.nil_append, List.set_cons_zero,
        List.append_assoc]
    rw [hset]
    apply is_valid_of_parts
    · simp only [List.length_append, List.length_replicate, List.length_cons, List.length_nil]
    · unfold bank_checksum_calc
      simp only [List.sum_append, List.sum_replicate, List.sum_cons,
        List.sum_nil, smul_eq_mul]
      norm_num

/-- C9 amended: restricted to accepted banks whose last payload byte
(index 4101) is itself a 7-bit value, the claim holds: changing that byte
to any different 7-bit value makes the verifier reject the bank with a
checksum mismatch, and truncating the bank to its first 4103 bytes makes
it reject with the length error. -/
theorem C9_bank_flip_truncate (B : List Nat)
    (hok : is_valid_dx7_bank B = .ok) (h7 : B.getD 4101 0 < 128)
    (v : Nat) (hv : v < 128) (hne : v ≠ B.getD 4101 0) :
    is_valid_dx7_bank (B.set 4101 v) = .checksumMismatch
    ∧ is_valid_dx7_bank (B.take 4103) = .sizeError := by
  unfold is_valid_dx7_bank at hok
  split_ifs at hok with h1 h2 h3 h4 h5
  all_goals try simp only [reduceCtorEq] at hok
  have hlen : B.length = 4104 := not_ne_iff.mp h1
  have e0 : (B.set 4101 v).getD 0 0 = B.getD 0 0 := getD_set_ne _ _ _ _ (by omega)
  have e1 : (B.set 4101 v).getD 1 0 = B.getD 1 0 := getD_set_ne _ _ _ _ (by omega)
  have e2 : (B.set 4101 v).getD 2 0 = B.getD 2 0 := getD_set_ne _ _ _ _ (by omega)
  have e3 : (B.set 4101 v).getD 3 0 = B.getD 3 0 := getD_set_ne _ _ _ _ (by omega)
  have e4 : (B.set 4101 v).getD 4 0 = B.getD 4 0 := getD_set_ne _ _ _ _ (by omega)
  have e5 : (B.set 4101 v).getD 5 0 = B.getD 5 0 := getD_set_ne _ _ _ _ (by omega)
  have e4102 : (B.set 4101 v).getD 4102 0 = B.getD 4102 0 :=
    getD_set_ne _ _ _ _ (by omega)
  have e4103 : (B.set 4101 v).getD 4103 0 = B.getD 4103 0 :=
    getD_set_ne _ _ _ _ (by omega)
  have hplen : (bankPayload B).length = 4096 := by
    simp [bankPayload, hlen]
  constructor
  · unfold is_valid_dx7_bank
    rw [if_neg (by simp [List.length_set, hlen])]
    rw [if_neg (by rw [e0, e1, e2, e3, e4, e5]; exact not_not_intro h2)]
    rw [if_neg (by rw [e4103]; exact h3)]
    rw [bankPayload_set_4101]
    rw [if_neg (by simp [List.length_set, hplen])]
    rw [e4102]
    rw [if_pos ?_]
    have hstored : bank_checksum_calc (bankPayload B) = B.getD 4102 0 :=
      not_ne_iff.mp h5
    have hold : (bankPayload B).getD 4095 0 = B.getD 4101 0 :=
      bankPayload_getD_4095 B hlen
    have holdle : (bankPayload B).getD 4095 0 ≤ (bankPayload B).sum :=
      getD_le_sum _ _ (by omega)
    have hsum : ((bankPayload B).set 4095 v).sum =
        (bankPayload B).sum - (bankPayload B).getD 4095 0 + v :=
      sum_set _ _ _ (by omega)
    unfold bank_checksum_calc at hstored ⊢
    rw [hsum, hold]
    rw [hold] at holdle
    omega
  · unfold is_valid_dx7_bank
    rw [if_pos (by simp [List.length_take, hlen])]

/-- C9 witness: the amended claim applied to the concrete all-zero bank
`zeroBank` — flipping its last payload byte (0) to the different 7-bit
value 1 yields a checksum-mismatch rejection, and truncating it to 4103
bytes yields the length error. -/
theorem C9_bank_flip_truncate_witness :
    is_valid_dx7_bank (zeroBank.set 4101 1) = .checksumMismatch
    ∧ is_valid_dx7_bank (zeroBank.take 4103) = .sizeError := by
  have hok : is_valid_dx7_bank zeroBank = .ok := by
    unfold zeroBank
    apply is_valid_of_parts
    · simp only [List.length_replicate]
    · unfold bank_checksum_calc
      simp only [List.sum_replicate, smul_eq_mul]
  have h4101 : zeroBank.getD 4101 0 = 0 := by
    unfold zeroBank
    rw [show (4096 : Nat) = 4095 + 1 from rfl, List.replicate_succ',
      show (List.replicate 4095 (0 : Nat) ++ [0]) ++ [0, 0xF7] =
        List.replicate 4095 (0 : Nat) ++ ([0] ++ [0, 0xF7])
        by simp only [List.append_assoc],
      show ([0xF0, 0x43, 0x00, 0x09, 0x20, 0x00] : List Nat) ++
        (List.replicate 4095 (0 : Nat) ++ ([0] ++ [0, 0xF7])) =
        (([0xF0, 0x43, 0x00, 0x09, 0x20, 0x00] : List Nat) ++
          List.replicate 4095 (0 : Nat)) ++ ([0] ++ [0, 0xF7])
        by simp only [List.append_assoc]]
    rw [show (4101 : Nat) = (([0xF0, 0x43, 0x00, 0x09, 0x20, 0x00] : List Nat) ++
      List.replicate 4095 (0 : Nat)).length + 0 by
        simp only [List.length_append, List.length_replicate, List.length_cons, List.length_nil],
      getD_append_right_at]
    rfl
  exact C9_bank_flip_truncate zeroBank hok (by rw [h4101]; norm_num) 1
    (by norm_num) (by rw [h4101]; norm_num)

/-- Every `param_map` entry is a VNUM entry exactly when its parameter
number lies in 16..23 (the eight `VNUM1`..`VNUM8` slots). -/
theorem paramMap_vnum_pnum : ∀ p ∈ paramMap,
    strStartsWith p.fst "VNUM"
      = (decide (16 ≤ p.snd.pnum) && decide (p.snd.pnum ≤ 23)) := by
  decide

/-- A message constructed by `buildMsg` is the six-byte two-7-bit-byte form
for VNUM parameters and the five-byte single-value form otherwise. -/
theorem buildMsg_sent_form (name : String) (pnum : Nat) (internal : Int)
    (db : Nat) (msg : List Nat)
    (h : buildMsg name pnum internal db = .sent msg) :
    (strStartsWith name "VNUM" = true ∧
       msg = [YAMAHA_ID, db, PCED_PARAM_CHANGE_GROUP_SUBGROUP_BYTE, pnum,
              internal.toNat / 128 % 128, internal.toNat % 128]) ∨
    (strStartsWith name "VNUM" = false ∧
       msg = [YAMAHA_ID, db, PCED_PARAM_CHANGE_GROUP_SUBGROUP_BYTE, pnum,
              internal.toNat]) := by
  unfold buildMsg at h
  split_ifs at h with hv hr
  · left
    refine ⟨hv, ?_⟩
    injection h with h2
    exact h2.symm
  · right
    refine ⟨Bool.eq_false_iff.mpr hv, ?_⟩
    injection h with h2
    exact h2.symm

/-- Every message `edit_one` sends is built by `buildMsg` from a
`param_map` entry's name and parameter number and the converted internal
value, with the resolved device-id byte. -/
theorem edit_one_sent_form (k : String) (v : PVal) (d : Int) (msg : List Nat)
    (h : edit_one k v d = .sent msg) :
    ∃ name entry internal, (name, entry) ∈ paramMap ∧
      buildMsg name entry.pnum internal (deviceIdByte d) = .sent msg := by
  unfold edit_one at h
  split at h
  · exact EditOutcome.noConfusion h
  · split at h
    · exact EditOutcome.noConfusion h
    · split at h
      · exact EditOutcome.noConfusion h
      · rename_i hfind xc internal hcomp
        exact ⟨_, _, _, List.mem_of_find?_eq_some hfind, h⟩

/-- C8: `edit_performance` on `{"PRESET2": "C12"}` succeeds and sends
exactly one Parameter-Change packet, for parameter number 17 (`VNUM2`,
base 16 + (2-1)) with internal value 75 = 64 + 11 encoded as two 7-bit
bytes MSB 0, LSB 75; and in general every sent message either targets a
VNUM parameter number (16..23) with six data bytes whose final two are
7-bit MSB/LSB, or a non-VNUM parameter with five data bytes (a single
value byte). -/
theorem C8_preset_vnum_encoding :
    edit_performance 1 [("PRESET2", PVal.str "C12")]
      = (true, [[0x43, 0x10, 0x1A, 17, 0x00, 75]]) ∧
    ∀ k v d msg, edit_one k v d = EditOutcome.sent msg →
      (msg.length = 6 ∧ 16 ≤ msg.getD 3 0 ∧ msg.getD 3 0 ≤ 23 ∧
         msg.getD 4 0 < 128 ∧ msg.getD 5 0 < 128) ∨
      (msg.length = 5 ∧ ¬(16 ≤ msg.getD 3 0 ∧ msg.getD 3 0 ≤ 23)) := by
  constructor
  · decide
  · intro k v d msg h
    obtain ⟨name, entry, internal, hmem, hb⟩ := edit_one_sent_form k v d msg h
    have hvn := paramMap_vnum_pnum (name, entry) hmem
    dsimp only at hvn
    rcases buildMsg_sent_form name entry.pnum internal (deviceIdByte d) msg hb
      with ⟨hv, hmsg⟩ | ⟨hv, hmsg⟩
    · left
      rw [hv] at hvn
      have h16 := hvn.symm
      simp only [Bool.and_eq_true, decide_eq_true_eq] at h16
      subst hmsg
      refine ⟨by simp, ?_, ?_, ?_, ?_⟩ <;>
        simp only [List.getD_cons_succ, List.getD_cons_zero]
      · exact h16.1
      · exact h16.2
      · exact Nat.mod_lt _ (by norm_num)
      · exact Nat.mod_lt _ (by norm_num)
    · right
      rw [hv] at hvn
      subst hmsg
      refine ⟨by simp, ?_⟩
      simp only [List.getD_cons_succ, List.getD_cons_zero]
      intro hc
      rw [decide_eq_true hc.1, decide_eq_true hc.2] at hvn
      simp at hvn

/-- C10: the device-id byte of every constructed message is
`0x10 + (device_id - 1)` clamped into 0x10..0x1F: it always lies in
16..31, and a `device_id` outside 1..16 falls back to the byte 0x10
(device 1) without the call failing — `press_button` still sends its
Remote-Switch message and `edit_performance` still succeeds, as the
concrete `ENTER` press and `OUTVOL1` edit show for every `device_id`. -/
theorem C10_device_id_substitution (d : Int) :
    (16 ≤ deviceIdByte d ∧ deviceIdByte d ≤ 31) ∧
    ((d < 1 ∨ 16 < d) → deviceIdByte d = 16) ∧
    (∀ b msg, press_button b d = PressOutcome.sentMsg msg →
       msg.getD 1 0 = deviceIdByte d) ∧
    (∀ k v msg, edit_one k v d = EditOutcome.sent msg →
       msg.getD 1 0 = deviceIdByte d) ∧
    press_button "ENTER" d
      = PressOutcome.sentMsg [0x43, deviceIdByte d, 0x1B, 77, 0x00] ∧
    edit_performance d [("OUTVOL1", PVal.int 50)]
      = (true, [[0x43, deviceIdByte d, 0x1A, 32, 50]]) := by
  refine ⟨?_, ?_, ?_, ?_, ?_, ?_⟩
  · simp only [deviceIdByte]
    split_ifs <;> omega
  · intro hd
    simp only [deviceIdByte]
    split_ifs <;> omega
  · intro b msg h
    simp only [press_button] at h
    split_ifs at h
    split at h
    · exact PressOutcome.noConfusion h
    · injection h with h2
      rw [← h2]
      simp only [List.getD_cons_succ, List.getD_cons_zero]
  · intro k v msg h
    obtain ⟨name, entry, internal, hmem, hb⟩ := edit_one_sent_form k v d msg h
    rcases buildMsg_sent_form name entry.pnum internal (deviceIdByte d) msg hb
      with ⟨hv, hmsg⟩ | ⟨hv, hmsg⟩ <;> subst hmsg <;>
      simp only [List.getD_cons_succ, List.getD_cons_zero]
  · have h1 : ¬ strStartsWith (pyUpper "ENTER") "WAIT" = true := by decide
    have h2 : buttonCode (pyUpper "ENTER") = some 77 := by decide
    simp only [press_button]
    rw [if_neg h1, h2]
    rfl
  · have hres : resolveKey (pyUpper "OUTVOL1") (PVal.int 50)
        = Except.ok ("OUTVOL1", PVal.int 50) := by rfl
    have hfind : paramMap.find? (fun entry => entry.fst == "OUTVOL1")
        = some ("OUTVOL1", PEntry.mk 32 0 99 PType.int false) := by decide
    have hcomp : computeInternal "OUTVOL1" (PEntry.mk 32 0 99 PType.int false)
        (PVal.int 50) = Except.ok 50 := by rfl
    have hvn : ¬ strStartsWith "OUTVOL1" "VNUM" = true := by decide
    simp only [edit_performance, List.foldl_cons, List.foldl_nil, edit_one,
      hres, hfind, hcomp, buildMsg, if_neg hvn]
    rfl

end TX802
